import Mathlib

/-!
# Verification of Tracker.Sptfy (`src/trackersptfy.py`)

A shallow embedding of the Spotify listening tracker in `trackersptfy.py`:
the pure merge logic of `save_to_excel`, its retry loop, the
`get_currently_playing` record construction, and the change detection of
`main`, together with theorems about the specified properties.

External effects (the Spotify API, the filesystem, the clock) are modelled
as explicit inputs: each attempt of the retry loop gets an outcome from an
environment function, and the API responses are parameters of
`get_currently_playing`.
-/

namespace TrackerSptfy

/-- A spreadsheet cell value, as stored by pandas from the song dict:
a string, an integer, a Python `None`, or the raw genre list
(the `"Genres"` column of the timestamp sheet receives `song_data["Genres"]`,
a Python list). -/
inductive Cell where
  | str (v : String)
  | int (v : Int)
  | null
  | strList (v : List String)
deriving DecidableEq, Repr

/-- A Python `Optional[str]` turned into a cell. -/
def optCell : Option String → Cell
  | some v => .str v
  | none => .null

/-- A row of a non-genre sheet: the association of column names to cells,
as built by `{col: song_data[col] for col in columns}` (line 100). -/
def Row : Type := List (String × Cell)

instance : DecidableEq Row := inferInstanceAs (DecidableEq (List (String × Cell)))

/-- Look a column up in a row (pandas column access `row[col]`). -/
def rowGet (r : Row) (c : String) : Cell :=
  match r.find? (fun p => p.1 == c) with
  | some p => p.2
  | none => .null

/-- The song dict returned by `get_currently_playing` (lines 180-194). -/
structure SongData where
  songName : String
  trackId : String
  album : String
  albumId : String
  artist : String
  artistId : String
  songUrl : String
  progress : Option Int
  timestamp : String
  trackImage : Option String
  albumImage : Option String
  artistImage : Option String
  genres : List String
deriving DecidableEq, Repr

/-- `song_data[col]`: the cell stored for each column name used by the
sheet schemas (lines 37-43 name exactly these keys of the song dict). -/
def songField (s : SongData) : String → Cell
  | "Timestamp" => .str s.timestamp
  | "Track ID" => .str s.trackId
  | "Album ID" => .str s.albumId
  | "Artist ID" => .str s.artistId
  | "Genres" => .strList s.genres
  | "Song Name" => .str s.songName
  | "Song URL" => .str s.songUrl
  | "Track Image" => optCell s.trackImage
  | "Artist" => .str s.artist
  | "Album" => .str s.album
  | "Album Image" => optCell s.albumImage
  | "Artist Image" => optCell s.artistImage
  | _ => .null

/-- The five sheet names, the keys of the `sheets` dict (lines 37-43). -/
inductive SheetName where
  | timestamp
  | tracks
  | albums
  | artists
  | genres
deriving DecidableEq, Repr

/-- The iteration order of `for sheet, columns in sheets.items()` (line 66):
Python dicts preserve insertion order. -/
def sheetOrder : List SheetName :=
  [.timestamp, .tracks, .albums, .artists, .genres]

/-- The `sheets` column mapping (lines 37-43). -/
def sheetColumns : SheetName → List String
  | .timestamp => ["Timestamp", "Track ID", "Album ID", "Artist ID", "Genres"]
  | .tracks => ["Song Name", "Track ID", "Song URL", "Track Image", "Artist"]
  | .albums => ["Album", "Album ID", "Album Image", "Artist"]
  | .artists => ["Artist", "Artist ID", "Artist Image"]
  | .genres => ["Genre", "Count"]

/-- The `primary_keys` dict (lines 45-51). -/
def primary_keys : SheetName → String
  | .timestamp => "Timestamp"
  | .tracks => "Track ID"
  | .albums => "Album ID"
  | .artists => "Artist ID"
  | .genres => "Genre"

/-- The new row for a sheet: `pd.DataFrame([{col: song_data[col] for col in
columns}])` (line 100). -/
def newRowFor (s : SongData) (sheet : SheetName) : Row :=
  (sheetColumns sheet).map (fun c => (c, songField s c))

/-- A row of the genres sheet (columns `Genre`, `Count`, line 42). -/
structure GenreRow where
  genre : String
  count : Int
deriving DecidableEq, Repr

/-- Genre normalisation: `genre.lower().strip()` (line 81). -/
def normalizeGenre (g : String) : String := g.toLower.trim

/-- One iteration of the genre loop (lines 79-92) for an already
normalised genre `g`: if any row matches, `.loc[mask, "Count"] += 1`
increments the count of every matching row; otherwise a fresh row with
count 1 is concatenated at the end. -/
def updateGenresOnce (rows : List GenreRow) (g : String) : List GenreRow :=
  if rows.any (fun r => r.genre == g) then
    rows.map (fun r => if r.genre == g then { r with count := r.count + 1 } else r)
  else
    rows ++ [⟨g, 1⟩]

/-- The whole genre loop (lines 79-92): fold over the song's genre list,
normalising each entry first. -/
def updateGenres (rows : List GenreRow) (gs : List String) : List GenreRow :=
  gs.foldl (fun acc g => updateGenresOnce acc (normalizeGenre g)) rows

/-- Read a genre's count off the genres sheet: the count of the first row
whose `Genre` equals `g`, if any. -/
def genreCount (rows : List GenreRow) (g : String) : Option Int :=
  (rows.find? (fun r => r.genre == g)).map (·.count)

/-- The existing workbook contents as read on line 56: each sheet may be
absent from the file (`if sheet in existing_data`, line 106). When the file
does not exist, all five sheets are initialised empty (lines 57-59). -/
structure ExistingData where
  timestamp : Option (List Row)
  tracks : Option (List Row)
  albums : Option (List Row)
  artists : Option (List Row)
  genres : Option (List GenreRow)

/-- The `existing_data` initialised for a missing file (lines 57-59):
every sheet present and empty. -/
def freshExistingData : ExistingData :=
  { timestamp := some [], tracks := some [], albums := some [],
    artists := some [], genres := some [] }

/-- The rows the code sees for a regular sheet. -/
def existingRows (ex : ExistingData) : SheetName → Option (List Row)
  | .timestamp => ex.timestamp
  | .tracks => ex.tracks
  | .albums => ex.albums
  | .artists => ex.artists
  | .genres => none

/-- The regular-sheet branch (lines 100-121): build the new row, test
`existing_data[sheet][primary_key].eq(new_value).any()`, and either keep
the existing rows, append the new row, or (sheet absent) start the sheet
with just the new row.  Returns the updated rows and whether the branch
set `can_save_any_sheet = True`. -/
def updateRegularSheet (existing : Option (List Row)) (newRow : Row)
    (pk : String) : List Row × Bool :=
  match existing with
  | some rows =>
    if rows.any (fun r => rowGet r pk == rowGet newRow pk) then
      (rows, false)
    else
      (rows ++ [newRow], true)
  | none => ([newRow], true)

/-- An updated sheet: regular rows or genre tallies. -/
inductive SheetData where
  | regular (rows : List Row)
  | genreSheet (rows : List GenreRow)
deriving DecidableEq

/-- One iteration of the sheet loop (lines 66-121): the accumulator is
(`updated_sheets`, `can_save_any_sheet`).  The genres branch (lines 68-96)
updates the tallies (initialising the sheet empty when absent, lines
73-75) and assigns the flag `True`; the regular branch or-accumulates the
flag set on lines 112 and 119. -/
def processSheet (ex : ExistingData) (song : SongData)
    (acc : List (SheetName × SheetData) × Bool) (sheet : SheetName) :
    List (SheetName × SheetData) × Bool :=
  match sheet with
  | .genres =>
    let gsheet := updateGenres (ex.genres.getD []) song.genres
    (acc.1 ++ [(.genres, .genreSheet gsheet)], true)
  | s =>
    let res :=
      updateRegularSheet (existingRows ex s) (newRowFor song s) (primary_keys s)
    (acc.1 ++ [(s, .regular res.1)], acc.2 || res.2)

/-- The pure core of one attempt of `save_to_excel` (lines 53-131): the
updated sheets and the final `can_save_any_sheet` flag.  The file is
rewritten (lines 124-127) exactly when the flag is true. -/
def save_to_excel_merge (ex : ExistingData) (song : SongData) :
    List (SheetName × SheetData) × Bool :=
  sheetOrder.foldl (processSheet ex song) ([], false)

/-- Look a sheet up in the computed `updated_sheets`. -/
def mergedSheet (res : List (SheetName × SheetData)) (n : SheetName) :
    Option SheetData :=
  (res.find? (fun p => p.1 == n)).map (·.2)

/-! ## The retry loop of `save_to_excel` (lines 33-34 and 53-141) -/

/-- What one attempt of the `try` body does: succeeds (the merge ran and
any write completed), raises `PermissionError` (the file is locked), or
raises some other exception. -/
inductive AttemptOutcome where
  | success
  | permError
  | otherError
deriving DecidableEq, Repr

/-- The observable result of a `save_to_excel` call: how many attempts of
the `try` body ran, how many one-second `time.sleep(1)` calls happened
(line 137), whether the successful write path was reached, and whether an
exception escaped the function. -/
structure SaveRunResult where
  attempts : Nat
  sleeps : Nat
  wrote : Bool
  raised : Bool
deriving DecidableEq, Repr

/-- The `while retry_count < max_retries` loop (lines 53-141): `fuel` is
`max_retries - retry_count`.  On success the function returns (line 133);
on `PermissionError` it sleeps one second, increments `retry_count` and
retries (lines 135-138); on any other exception it returns at once
(lines 139-141).  When the loop condition fails the function falls off its
end, returning without writing. -/
def saveLoop (env : Nat → AttemptOutcome) :
    Nat → Nat → Nat → SaveRunResult
  | 0, attemptIdx, sleeps =>
    { attempts := attemptIdx, sleeps := sleeps, wrote := false, raised := false }
  | fuel + 1, attemptIdx, sleeps =>
    match env attemptIdx with
    | .success =>
      { attempts := attemptIdx + 1, sleeps := sleeps, wrote := true, raised := false }
    | .otherError =>
      { attempts := attemptIdx + 1, sleeps := sleeps, wrote := false, raised := false }
    | .permError => saveLoop env fuel (attemptIdx + 1) (sleeps + 1)

/-- `save_to_excel`'s control flow: `max_retries = 3`, `retry_count = 0`
(lines 33-34). -/
def save_to_excel_run (env : Nat → AttemptOutcome) : SaveRunResult :=
  saveLoop env 3 0 0

/-! ## `get_currently_playing` (lines 143-197) -/

/-- An artist entry of `item["artists"]`. -/
structure ArtistObj where
  name : String
  id : String
deriving DecidableEq, Repr

/-- An image entry (`images` lists hold dicts with a `url`). -/
structure ImageObj where
  url : String
deriving DecidableEq, Repr

/-- The `item["album"]` object. -/
structure AlbumObj where
  name : String
  id : String
  images : List ImageObj
deriving DecidableEq, Repr

/-- The `current_track["item"]` object. -/
structure ItemObj where
  name : String
  id : String
  album : AlbumObj
  artists : List ArtistObj
  spotifyUrl : String
deriving DecidableEq, Repr

/-- The `sp.current_playback()` response: `item` may be `None`, and
`progress_ms` is nullable. -/
structure PlaybackState where
  item : Option ItemObj
  progress_ms : Option Int
deriving DecidableEq, Repr

/-- The `sp.artist(id)` response: images and a genre list
(`artist_response.get("genres", [])`). -/
structure ArtistResponse where
  images : List ImageObj
  genres : List String
deriving DecidableEq, Repr

/-- The external world seen by one `get_currently_playing` call:
`sp.current_playback()` either raises (`Except.error`) or returns a
possibly-`None` playback state, `sp.artist` either raises or answers, and
`datetime.now().strftime(...)` yields a timestamp string. -/
structure SpotifyEnv where
  current_playback : Except Unit (Option PlaybackState)
  artist : String → Except Unit ArtistResponse
  now : String

/-- The guarded artist lookup of lines 171-178: only runs when
`artist_id_list` is non-empty, is keyed on its first entry, and on a
raised exception leaves `(artist_image, genres)` at their initial
`(None, [])`. -/
def artistLookupResult (env : SpotifyEnv) (artist_id_list : List String) :
    Option String × List String :=
  match artist_id_list with
  | [] => (none, [])
  | firstId :: _ =>
    match env.artist firstId with
    | .error _ => (none, [])
    | .ok artist_response =>
      ((artist_response.images.head?).map (·.url), artist_response.genres)

/-- The song dict returned on lines 180-194, given the outcome
`(artist_image, genres)` of the guarded artist lookup. -/
def builtSong (env : SpotifyEnv) (current_track : PlaybackState)
    (item : ItemObj) (artist_image : Option String) (genres : List String) :
    SongData :=
  { songName := item.name
    trackId := item.id
    album := item.album.name
    albumId := item.album.id
    artist := String.intercalate ", " (item.artists.map (·.name))
    artistId := String.intercalate ", " (item.artists.map (·.id))
    songUrl := item.spotifyUrl
    progress := current_track.progress_ms
    timestamp := env.now
    trackImage := (item.album.images.head?).map (·.url)
    albumImage := (item.album.images.head?).map (·.url)
    artistImage := artist_image
    genres := genres }

/-- `get_currently_playing` (lines 143-197).  Any failure of the playback
fetch, a falsy response, or a missing item yields `none`; otherwise the
song dict is built.  The artist lookup on the first artist id (lines
171-178) is guarded by its own `try`: when it raises, `artist_image`
stays `None` and `genres` stays `[]`. -/
def get_currently_playing (env : SpotifyEnv) : Option SongData :=
  match env.current_playback with
  | .error _ => none
  | .ok none => none
  | .ok (some current_track) =>
    match current_track.item with
    | none => none
    | some item =>
      let res := artistLookupResult env (item.artists.map (·.id))
      some (builtSong env current_track item res.1 res.2)

/-! ## The `main` loop (lines 199-235) -/

/-- What one iteration of the `while True` body encounters: a normal poll
(whose `get_currently_playing` result is given), a `KeyboardInterrupt`, or
any other exception raised inside the body. -/
inductive LoopEvent where
  | poll (result : Option SongData)
  | keyboardInterrupt
  | otherException
deriving DecidableEq, Repr

/-- The loop's mutable state: `last_song` and `last_progress`
(lines 204-205). -/
structure LoopState where
  last_song : Option String
  last_progress : Option Int
deriving DecidableEq, Repr

/-- What an iteration does next: continue with a new state after sleeping
the given number of seconds, or break out of the loop. -/
inductive StepResult where
  | next (st : LoopState) (sleepSecs : Nat)
  | stop
deriving DecidableEq, Repr

/-- `is_new_song` (line 214): `last_song != song["Song Name"]`. -/
def is_new_song (last_song : Option String) (song : SongData) : Bool :=
  last_song != some song.songName

/-- `has_restarted` (lines 215-216): progress non-null and `< 2000`. -/
def has_restarted (song : SongData) : Bool :=
  match song.progress with
  | none => false
  | some p => p < 2000

/-- The change detector (line 218): record iff new song or restart. -/
def shouldRecord (last_song : Option String) (song : SongData) : Bool :=
  is_new_song last_song song || has_restarted song

/-- One iteration of `main`'s `while True` loop (lines 207-235).
`KeyboardInterrupt` breaks (lines 230-232); any other exception is caught
by the generic handler, which sleeps 30 seconds and continues (lines
233-235); a normal iteration records when the detector fires, updates the
tracking variables, and sleeps 10 seconds. -/
def mainStep (ev : LoopEvent) (st : LoopState) : StepResult :=
  match ev with
  | .keyboardInterrupt => .stop
  | .otherException => .next st 30
  | .poll none => .next st 10
  | .poll (some song) =>
    if shouldRecord st.last_song song then
      .next { last_song := some song.songName, last_progress := song.progress } 10
    else
      .next st 10

/-! ## Concrete sample data (used by witnesses and counterexamples) -/

/-- A concrete observed song, as `get_currently_playing` would build it.
Its genre list is empty so that every statement about it evaluates by
`rfl`/`decide` (string normalisation does not kernel-reduce). -/
def sampleSong : SongData :=
  { songName := "Song A", trackId := "t1", album := "Album A", albumId := "b1",
    artist := "Artist X", artistId := "x1", songUrl := "https://s",
    progress := some 500, timestamp := "2024-01-01 12:00:00",
    trackImage := none, albumImage := none, artistImage := none,
    genres := [] }

/-- A workbook that already holds a play row with `sampleSong`'s exact
timestamp string. -/
def dupTimestampData : ExistingData :=
  { freshExistingData with timestamp := some [newRowFor sampleSong .timestamp] }

/-- `sampleSong` with a different track ID and nothing else changed. -/
def sampleSongOtherId : SongData :=
  { sampleSong with trackId := "t2" }

/-- A concrete playing item with two artists. -/
def sampleItem : ItemObj :=
  { name := "Song A", id := "t1",
    album := { name := "Album A", id := "b1", images := [] },
    artists := [{ name := "Artist X", id := "x1" },
                { name := "Artist Y", id := "y1" }],
    spotifyUrl := "https://s" }

/-- A concrete playback state around `sampleItem`. -/
def samplePlayback : PlaybackState :=
  { item := some sampleItem, progress_ms := some 500 }

/-- An environment whose playback fetch succeeds but whose artist lookup
raises. -/
def sampleEnvArtistFail : SpotifyEnv :=
  { current_playback := .ok (some samplePlayback),
    artist := fun _ => .error (), now := "2024-01-01 12:00:00" }

/-- A concrete artist-lookup response. -/
def sampleArtistResponse : ArtistResponse :=
  { images := [{ url := "https://img" }], genres := ["indie rock"] }

/-- An environment where both lookups succeed. -/
def sampleEnvOk : SpotifyEnv :=
  { current_playback := .ok (some samplePlayback),
    artist := fun _ => .ok sampleArtistResponse, now := "2024-01-01 12:00:00" }

/-! ## Helper lemmas about the merge -/

/-- The merge's `updated_sheets`, spelled out: one entry per sheet in
iteration order. -/
lemma save_to_excel_merge_fst (ex : ExistingData) (song : SongData) :
    (save_to_excel_merge ex song).1 =
      [(.timestamp, .regular (updateRegularSheet ex.timestamp
          (newRowFor song .timestamp) "Timestamp").1),
       (.tracks, .regular (updateRegularSheet ex.tracks
          (newRowFor song .tracks) "Track ID").1),
       (.albums, .regular (updateRegularSheet ex.albums
          (newRowFor song .albums) "Album ID").1),
       (.artists, .regular (updateRegularSheet ex.artists
          (newRowFor song .artists) "Artist ID").1),
       (.genres, .genreSheet (updateGenres (ex.genres.getD []) song.genres))] :=
  rfl

/-- Projecting a non-genre sheet out of the merge gives exactly the
regular-branch update of that sheet. -/
lemma mergedSheet_regular (ex : ExistingData) (song : SongData)
    (s : SheetName) (hs : s ≠ .genres) :
    mergedSheet (save_to_excel_merge ex song).1 s =
      some (.regular (updateRegularSheet (existingRows ex s)
        (newRowFor song s) (primary_keys s)).1) := by
  cases s with
  | timestamp => rfl
  | tracks => rfl
  | albums => rfl
  | artists => rfl
  | genres => exact absurd rfl hs

/-- Projecting the genres sheet out of the merge gives the genre-loop
result. -/
lemma mergedSheet_genres (ex : ExistingData) (song : SongData) :
    mergedSheet (save_to_excel_merge ex song).1 .genres =
      some (.genreSheet (updateGenres (ex.genres.getD []) song.genres)) :=
  rfl

/-- The pandas duplicate test `existing[pk].eq(new).any()` (line 107) is
membership of the new primary-key cell in the existing key column. -/
lemma any_pk_iff (rows : List Row) (nr : Row) (pk : String) :
    (rows.any (fun r => rowGet r pk == rowGet nr pk) = true) ↔
      rowGet nr pk ∈ rows.map (fun r => rowGet r pk) := by
  rw [List.any_eq_true]
  constructor
  · rintro ⟨r, hr, hbeq⟩
    exact List.mem_map.mpr ⟨r, hr, beq_iff_eq.mp hbeq⟩
  · intro h
    obtain ⟨r, hr, hre⟩ := List.mem_map.mp h
    exact ⟨r, hr, beq_iff_eq.mpr hre⟩

/-- The regular-branch update on a present sheet: keep the rows when the
key is already there, append the new row otherwise. -/
lemma updateRegularSheet_some (rows : List Row) (nr : Row) (pk : String) :
    (updateRegularSheet (some rows) nr pk).1 =
      if rowGet nr pk ∈ rows.map (fun r => rowGet r pk)
      then rows else rows ++ [nr] := by
  by_cases h : rowGet nr pk ∈ rows.map (fun r => rowGet r pk)
  · rw [if_pos h]
    simp only [updateRegularSheet, if_pos ((any_pk_iff rows nr pk).mpr h)]
  · rw [if_neg h]
    simp only [updateRegularSheet,
      if_neg (fun hc => h ((any_pk_iff rows nr pk).mp hc))]

/-- `updateGenresOnce` leaves the genre-key column unchanged or appends
the one new key; the key is appended only when it was absent. -/
lemma updateGenresOnce_keys (rows : List GenreRow) (g : String) :
    (updateGenresOnce rows g).map (·.genre) = rows.map (·.genre) ∨
    ((updateGenresOnce rows g).map (·.genre) = rows.map (·.genre) ++ [g] ∧
      g ∉ rows.map (·.genre)) := by
  unfold updateGenresOnce
  split
  · left
    rw [List.map_map]
    refine List.map_congr_left fun r _ => ?_
    simp only [Function.comp_apply]
    split <;> rfl
  · case isFalse hany =>
    right
    refine ⟨by rw [List.map_append]; rfl, fun hmem => ?_⟩
    obtain ⟨r, hr, hre⟩ := List.mem_map.mp hmem
    exact hany (List.any_eq_true.mpr ⟨r, hr, beq_iff_eq.mpr hre⟩)

/-- `updateGenresOnce` keeps the genre-key column duplicate-free. -/
lemma updateGenresOnce_nodup (rows : List GenreRow) (g : String)
    (hnd : (rows.map (·.genre)).Nodup) :
    ((updateGenresOnce rows g).map (·.genre)).Nodup := by
  rcases updateGenresOnce_keys rows g with hk | ⟨hk, habs⟩
  · rwa [hk]
  · rw [hk]
    simpa using List.Nodup.concat habs hnd

/-- The genre loop keeps the genre-key column duplicate-free. -/
lemma updateGenres_nodup (gs : List String) :
    ∀ rows : List GenreRow, (rows.map (·.genre)).Nodup →
      ((updateGenres rows gs).map (·.genre)).Nodup := by
  induction gs with
  | nil => intro rows h; exact h
  | cons x xs ih =>
    intro rows h
    exact ih _ (updateGenresOnce_nodup rows (normalizeGenre x) h)

/-- One genre-loop iteration, seen through `genreCount`: the looked-up
genre's count is bumped (or created at 1), every other genre's count is
untouched. -/
lemma genreCount_updateGenresOnce (rows : List GenreRow) (t g : String) :
    genreCount (updateGenresOnce rows t) g =
      if g = t then
        (match genreCount rows t with
         | some c => some (c + 1)
         | none => some 1)
      else genreCount rows g := by
  by_cases hany : (rows.any fun r => r.genre == t) = true
  · have hup : updateGenresOnce rows t = rows.map
        (fun r => if r.genre == t then { r with count := r.count + 1 } else r) := by
      unfold updateGenresOnce
      rw [if_pos hany]
    rw [hup]
    unfold genreCount
    rw [List.find?_map]
    have hpred : ((fun (r : GenreRow) => r.genre == g) ∘
        (fun r => if r.genre == t then { r with count := r.count + 1 } else r)) =
        (fun (r : GenreRow) => r.genre == g) := by
      funext r
      by_cases hc : (r.genre == t) = true
      · simp only [Function.comp_apply, if_pos hc]
      · simp only [Function.comp_apply, if_neg hc]
    rw [hpred, Option.map_map]
    by_cases hg : g = t
    · rw [hg, if_pos rfl]
      obtain ⟨r, hr, hbeq⟩ := List.any_eq_true.mp hany
      have hsome : (rows.find? (fun r => r.genre == t)).isSome :=
        List.find?_isSome.mpr ⟨r, hr, hbeq⟩
      obtain ⟨r', hfind⟩ := Option.isSome_iff_exists.mp hsome
      have hr'g : (r'.genre == t) = true :=
        @List.find?_some _ (fun r => r.genre == t) r' rows hfind
      rw [hfind]
      simp [hr'g, beq_iff_eq.mp hr'g]
    · rw [if_neg hg]
      cases hfind : rows.find? (fun r => r.genre == g) with
      | none => rfl
      | some r' =>
        have hr'g : (r'.genre == g) = true :=
          @List.find?_some _ (fun r => r.genre == g) r' rows hfind
        have hne : ¬(r'.genre == t) = true := fun hc =>
          hg ((beq_iff_eq.mp hr'g).symm.trans (beq_iff_eq.mp hc))
        have hne' : ¬r'.genre = t := fun hc => hne (beq_iff_eq.mpr hc)
        simp [hne, hne']
  · have hup : updateGenresOnce rows t = rows ++ [⟨t, 1⟩] := by
      unfold updateGenresOnce
      rw [if_neg hany]
    rw [hup]
    unfold genreCount
    rw [List.find?_append]
    have hnone : rows.find? (fun r => r.genre == t) = none := by
      rw [List.find?_eq_none]
      intro r hr hc
      exact hany (List.any_eq_true.mpr ⟨r, hr, hc⟩)
    by_cases hg : g = t
    · rw [hg, hnone]
      have hsingle : List.find? (fun r => r.genre == t) [(⟨t, 1⟩ : GenreRow)] =
          some ⟨t, 1⟩ :=
        List.find?_cons_of_pos _ (by simp)
      rw [hsingle, if_pos rfl]
      rfl
    · rw [if_neg hg]
      have hsingle : List.find? (fun r => r.genre == g) [(⟨t, 1⟩ : GenreRow)] =
          none := by
        rw [List.find?_eq_none]
        intro r hr hc
        rw [List.mem_singleton] at hr
        subst hr
        exact hg ((beq_iff_eq.mp hc).symm)
      rw [hsingle, Option.or_none]

/-- The whole genre loop, seen through `genreCount`: a present genre's
count grows by the number of occurrences of it among the normalised
entries, an absent one is created with exactly that number, any other
lookup is unchanged. -/
lemma genreCount_updateGenres (gs : List String) :
    ∀ (rows : List GenreRow) (g : String),
      genreCount (updateGenres rows gs) g =
        match genreCount rows g with
        | some c => some (c + ((gs.map normalizeGenre).count g : Int))
        | none =>
          if g ∈ gs.map normalizeGenre
          then some (((gs.map normalizeGenre).count g : Int))
          else none := by
  induction gs with
  | nil =>
    intro rows g
    cases hc : genreCount rows g <;> simp [updateGenres, hc]
  | cons x xs ih =>
    intro rows g
    have hstep : updateGenres rows (x :: xs) =
        updateGenres (updateGenresOnce rows (normalizeGenre x)) xs := rfl
    rw [hstep, ih, genreCount_updateGenresOnce]
    by_cases hg : g = normalizeGenre x
    · rw [hg, if_pos rfl]
      have hcnt : ((x :: xs).map normalizeGenre).count (normalizeGenre x) =
          (xs.map normalizeGenre).count (normalizeGenre x) + 1 := by
        rw [List.map_cons, List.count_cons, if_pos (beq_self_eq_true _)]
      have hmem : normalizeGenre x ∈ (x :: xs).map normalizeGenre := by
        rw [List.map_cons]
        exact List.mem_cons_self _ _
      cases hc : genreCount rows (normalizeGenre x) with
      | none =>
        rw [if_pos hmem, hcnt]
        refine congrArg some ?_
        push_cast
        ring
      | some c =>
        rw [hcnt]
        refine congrArg some ?_
        push_cast
        ring
    · rw [if_neg hg]
      have hcnt : ((x :: xs).map normalizeGenre).count g =
          (xs.map normalizeGenre).count g := by
        rw [List.map_cons, List.count_cons,
          if_neg (fun hc => hg (beq_iff_eq.mp hc).symm), Nat.add_zero]
      have hmem : g ∈ (x :: xs).map normalizeGenre ↔
          g ∈ xs.map normalizeGenre := by
        rw [List.map_cons, List.mem_cons]
        exact or_iff_right hg
      cases hc : genreCount rows g with
      | none =>
        rw [hcnt, if_congr hmem rfl rfl]
      | some c =>
        rw [hcnt]

/-- The genre loop only extends the genre-key column: the existing keys
stay, in order, as an initial segment. -/
lemma updateGenres_keys_extend (rows : List GenreRow) (gs : List String) :
    ∃ tail, (updateGenres rows gs).map (·.genre) =
      rows.map (·.genre) ++ tail := by
  induction gs generalizing rows with
  | nil => exact ⟨[], by simp [updateGenres]⟩
  | cons g gs ih =>
    have hstep : updateGenres rows (g :: gs) =
        updateGenres (updateGenresOnce rows (normalizeGenre g)) gs := rfl
    rw [hstep]
    obtain ⟨t, ht⟩ := ih (updateGenresOnce rows (normalizeGenre g))
    rcases updateGenresOnce_keys rows (normalizeGenre g) with h | ⟨h, _⟩
    · exact ⟨t, by rw [ht, h]⟩
    · exact ⟨normalizeGenre g :: t,
        by rw [ht, h, List.append_assoc, List.singleton_append]⟩

/-! ## Theorems -/

/-- C4: the change detector triggers iff the observed track name differs
from the last recorded one, or the playback progress is non-null and
strictly below 2000 ms; and it depends only on the song's name and
progress — in particular the restart test never consults the track ID. -/
theorem change_detector_spec (last : Option String) (song : SongData) :
    (shouldRecord last song = true ↔
      (last ≠ some song.songName ∨ ∃ p : Int, song.progress = some p ∧ p < 2000)) ∧
    (∀ s₁ s₂ : SongData, s₁.songName = s₂.songName → s₁.progress = s₂.progress →
      shouldRecord last s₁ = shouldRecord last s₂) := by
  constructor
  · simp only [shouldRecord, is_new_song, has_restarted, Bool.or_eq_true,
      bne_iff_ne, ne_eq]
    cases h : song.progress with
    | none => simp
    | some p => simp
  · intro s₁ s₂ hname hprog
    simp only [shouldRecord, is_new_song, has_restarted, hname, hprog]

/-- Witness for C4 at concrete inputs: the detector fires on
`sampleSong`'s sub-2000-ms progress, and changing only the track ID does
not change its verdict. -/
theorem change_detector_spec_witness :
    shouldRecord none sampleSong = true ∧
    shouldRecord (some "Song A") sampleSong =
      shouldRecord (some "Song A") sampleSongOtherId :=
  ⟨(change_detector_spec none sampleSong).1.mpr
      (Or.inr ⟨500, rfl, by decide⟩),
   (change_detector_spec (some "Song A") sampleSong).2 sampleSong
      sampleSongOtherId rfl rfl⟩

/-- C8: one iteration of the main loop stops only on `KeyboardInterrupt`;
any other event yields a continuation, and the generic exception handler
preserves the tracking state and sleeps 30 seconds; a failed poll
(`get_currently_playing` returned `None`) skips the iteration. -/
theorem main_loop_resilient (ev : LoopEvent) (st : LoopState)
    (h : ev ≠ .keyboardInterrupt) :
    (∃ st' secs, mainStep ev st = .next st' secs) ∧
    (mainStep .otherException st = .next st 30) ∧
    (mainStep (.poll none) st = .next st 10) := by
  refine ⟨?_, rfl, rfl⟩
  cases ev with
  | keyboardInterrupt => exact absurd rfl h
  | otherException => exact ⟨st, 30, rfl⟩
  | poll r =>
    cases r with
    | none => exact ⟨st, 10, rfl⟩
    | some song =>
      by_cases hrec : shouldRecord st.last_song song = true
      · exact ⟨{ last_song := some song.songName, last_progress := song.progress },
          10, by simp [mainStep, hrec]⟩
      · exact ⟨st, 10, by simp [mainStep, hrec]⟩

/-- Witness for C8 at a concrete input: an unexpected exception with empty
tracking state continues the loop. -/
theorem main_loop_resilient_witness :
    ((∃ st' secs, mainStep .otherException ⟨none, none⟩ = .next st' secs) ∧
      (mainStep .otherException ⟨none, none⟩ = .next ⟨none, none⟩ 30) ∧
      (mainStep (.poll none) ⟨none, none⟩ = .next ⟨none, none⟩ 10)) :=
  main_loop_resilient .otherException ⟨none, none⟩ (by decide)

/-- C5: `save_to_excel` runs at most `max_retries = 3` attempts, never
lets an exception escape, retries (after one `time.sleep(1)`) exactly on
`PermissionError`, and returns at once without writing on any other
exception.  The final equation characterises the run for every
environment: the number of one-second sleeps equals the number of
`PermissionError` attempts, and a non-lock failure ends the call
immediately with no write. -/
theorem save_retry_bounded (env : Nat → AttemptOutcome) :
    (save_to_excel_run env).attempts ≤ 3 ∧
    (save_to_excel_run env).raised = false ∧
    save_to_excel_run env =
      (match env 0 with
       | .success => ⟨1, 0, true, false⟩
       | .otherError => ⟨1, 0, false, false⟩
       | .permError =>
         match env 1 with
         | .success => ⟨2, 1, true, false⟩
         | .otherError => ⟨2, 1, false, false⟩
         | .permError =>
           match env 2 with
           | .success => ⟨3, 2, true, false⟩
           | .otherError => ⟨3, 2, false, false⟩
           | .permError => ⟨3, 3, false, false⟩) := by
  rcases h0 : env 0 <;> rcases h1 : env 1 <;> rcases h2 : env 2 <;>
    simp [save_to_excel_run, saveLoop, h0, h1, h2]

/-- C9: the genres branch sets `can_save_any_sheet = True` unconditionally,
so the flag is true after every merge — for every input, even a song with
an empty genre list whose every primary key already exists.  Hence the
`"No new unique data to save."` branch (line 131) is unreachable and every
successful call rewrites the workbook file. -/
theorem can_save_always_true (ex : ExistingData) (song : SongData) :
    (save_to_excel_merge ex song).2 = true := rfl

/-- C2: for every non-genre sheet whose existing key column has no
duplicates, the sheet produced by the merge has no duplicates either: the
new row is appended exactly when its primary-key cell is absent, and
otherwise the sheet is left equal to the existing one. -/
theorem no_duplicate_primary_keys (ex : ExistingData) (song : SongData)
    (s : SheetName) (hs : s ≠ .genres) (rows : List Row)
    (hex : existingRows ex s = some rows)
    (hnd : (rows.map (fun r => rowGet r (primary_keys s))).Nodup) :
    ∃ u, mergedSheet (save_to_excel_merge ex song).1 s = some (.regular u) ∧
      (u.map (fun r => rowGet r (primary_keys s))).Nodup ∧
      (rowGet (newRowFor song s) (primary_keys s) ∈
          rows.map (fun r => rowGet r (primary_keys s)) → u = rows) ∧
      (rowGet (newRowFor song s) (primary_keys s) ∉
          rows.map (fun r => rowGet r (primary_keys s)) →
        u = rows ++ [newRowFor song s]) := by
  have hproj := mergedSheet_regular ex song s hs
  rw [hex, updateRegularSheet_some] at hproj
  by_cases h : rowGet (newRowFor song s) (primary_keys s) ∈
      rows.map (fun r => rowGet r (primary_keys s))
  · rw [if_pos h] at hproj
    exact ⟨rows, hproj, hnd, fun _ => rfl, fun hn => absurd h hn⟩
  · rw [if_neg h] at hproj
    refine ⟨rows ++ [newRowFor song s], hproj, ?_,
      fun hm => absurd hm h, fun _ => rfl⟩
    simpa using List.Nodup.concat h hnd

/-- Witness for C2: saving `sampleSong` into a fresh workbook keeps the
tracks sheet duplicate-free and appends the one new row. -/
theorem no_duplicate_primary_keys_witness :
    ∃ u, mergedSheet (save_to_excel_merge freshExistingData sampleSong).1
        .tracks = some (.regular u) ∧
      (u.map (fun r => rowGet r (primary_keys .tracks))).Nodup ∧
      (rowGet (newRowFor sampleSong .tracks) (primary_keys .tracks) ∈
          ([] : List Row).map (fun r => rowGet r (primary_keys .tracks)) →
        u = []) ∧
      (rowGet (newRowFor sampleSong .tracks) (primary_keys .tracks) ∉
          ([] : List Row).map (fun r => rowGet r (primary_keys .tracks)) →
        u = [] ++ [newRowFor sampleSong .tracks]) :=
  no_duplicate_primary_keys freshExistingData sampleSong .tracks (by decide)
    [] rfl (by simp)

/-- C7: the merge never edits or deletes an existing row.  Every non-genre
sheet keeps its existing rows unchanged and in place, with at most the one
new row appended after them; the genres sheet keeps every existing genre
key, in order, as an initial segment of its key column (only the `Count`
fields of those rows can change), with new keys appended after. -/
theorem save_append_only (ex : ExistingData) (song : SongData) :
    (∀ s : SheetName, s ≠ .genres → ∀ rows, existingRows ex s = some rows →
      mergedSheet (save_to_excel_merge ex song).1 s = some (.regular rows) ∨
      mergedSheet (save_to_excel_merge ex song).1 s =
        some (.regular (rows ++ [newRowFor song s]))) ∧
    (∀ grows, ex.genres = some grows →
      ∃ upd tail, mergedSheet (save_to_excel_merge ex song).1 .genres =
          some (.genreSheet upd) ∧
        upd.map (·.genre) = grows.map (·.genre) ++ tail) := by
  constructor
  · intro s hs rows hex
    have hproj := mergedSheet_regular ex song s hs
    rw [hex, updateRegularSheet_some] at hproj
    by_cases h : rowGet (newRowFor song s) (primary_keys s) ∈
        rows.map (fun r => rowGet r (primary_keys s))
    · rw [if_pos h] at hproj
      exact Or.inl hproj
    · rw [if_neg h] at hproj
      exact Or.inr hproj
  · intro grows hg
    have hgd : ex.genres.getD [] = grows := by rw [hg]; rfl
    obtain ⟨t, ht⟩ := updateGenres_keys_extend grows song.genres
    refine ⟨updateGenres grows song.genres, t, ?_, ht⟩
    rw [← hgd]
    exact mergedSheet_genres ex song

/-- Witness for C7: at a fresh workbook and `sampleSong`, both the
non-genre frame condition (for the albums sheet) and the genres frame
condition hold. -/
theorem save_append_only_witness :
    (mergedSheet (save_to_excel_merge freshExistingData sampleSong).1 .albums =
        some (.regular ([] : List Row)) ∨
      mergedSheet (save_to_excel_merge freshExistingData sampleSong).1 .albums =
        some (.regular (([] : List Row) ++ [newRowFor sampleSong .albums]))) ∧
    (∃ upd tail,
      mergedSheet (save_to_excel_merge freshExistingData sampleSong).1 .genres =
        some (.genreSheet upd) ∧
      upd.map (·.genre) = ([] : List GenreRow).map (·.genre) ++ tail) :=
  ⟨(save_append_only freshExistingData sampleSong).1 .albums (by decide) [] rfl,
   (save_append_only freshExistingData sampleSong).2 [] rfl⟩

/-- C3: for a saved song, each normalised genre's count in the produced
genres sheet grows by the number of its occurrences among the song's
normalised genre entries; a genre not yet present is added with count
equal to its number of occurrences; any other genre's count is untouched
(so across saves each count equals the total number of observed
occurrences). -/
theorem genre_counts_spec (ex : ExistingData) (song : SongData)
    (grows : List GenreRow) (hg : ex.genres = some grows)
    (hnd : (grows.map (·.genre)).Nodup) :
    ∃ upd, mergedSheet (save_to_excel_merge ex song).1 .genres =
        some (.genreSheet upd) ∧
      (upd.map (·.genre)).Nodup ∧
      ∀ g : String, genreCount upd g =
        match genreCount grows g with
        | some c => some (c + ((song.genres.map normalizeGenre).count g : Int))
        | none =>
          if g ∈ song.genres.map normalizeGenre
          then some (((song.genres.map normalizeGenre).count g : Int))
          else none := by
  have hgd : ex.genres.getD [] = grows := by rw [hg]; rfl
  refine ⟨updateGenres grows song.genres, ?_,
    updateGenres_nodup song.genres grows hnd,
    fun g => genreCount_updateGenres song.genres grows g⟩
  rw [← hgd]
  exact mergedSheet_genres ex song

/-- Witness for C3: saving `sampleSong` into a fresh workbook satisfies
the genre-count characterisation. -/
theorem genre_counts_spec_witness :
    ∃ upd, mergedSheet (save_to_excel_merge freshExistingData sampleSong).1
        .genres = some (.genreSheet upd) ∧
      (upd.map (·.genre)).Nodup ∧
      ∀ g : String, genreCount upd g =
        match genreCount ([] : List GenreRow) g with
        | some c =>
          some (c + ((sampleSong.genres.map normalizeGenre).count g : Int))
        | none =>
          if g ∈ sampleSong.genres.map normalizeGenre
          then some (((sampleSong.genres.map normalizeGenre).count g : Int))
          else none :=
  genre_counts_spec freshExistingData sampleSong [] rfl (by simp)

/-- C1 (amended): when the change detector fires, the save appends exactly
one new row to the timestamp sheet provided the save's timestamp string is
not already a primary key of that sheet; a colliding timestamp (the
second-granularity string already recorded) leaves the sheet unchanged
instead. -/
theorem play_row_appended (ex : ExistingData) (song : SongData)
    (last : Option String) (htrig : shouldRecord last song = true)
    (rows : List Row) (hex : ex.timestamp = some rows)
    (hfresh : Cell.str song.timestamp ∉
      rows.map (fun r => rowGet r "Timestamp")) :
    mergedSheet (save_to_excel_merge ex song).1 .timestamp =
      some (.regular (rows ++ [newRowFor song .timestamp])) := by
  have hproj := mergedSheet_regular ex song .timestamp (by decide)
  have hexr : existingRows ex SheetName.timestamp = some rows := hex
  rw [hexr, updateRegularSheet_some] at hproj
  have hpk : primary_keys SheetName.timestamp = "Timestamp" := rfl
  rw [hpk] at hproj
  have hkey : rowGet (newRowFor song .timestamp) "Timestamp" =
      .str song.timestamp := rfl
  rw [hkey, if_neg hfresh] at hproj
  exact hproj

/-- Witness for C1's amended theorem: recording `sampleSong` with no last
song into a fresh workbook appends the one play row. -/
theorem play_row_appended_witness :
    shouldRecord none sampleSong = true ∧
    mergedSheet (save_to_excel_merge freshExistingData sampleSong).1
        .timestamp =
      some (.regular (([] : List Row) ++ [newRowFor sampleSong .timestamp])) :=
  ⟨by decide,
   play_row_appended freshExistingData sampleSong none (by decide) [] rfl
     (by simp)⟩

/-- Counterexample to C1 as stated: the detector fires (the song name
differs from the last recorded one), yet because a play row with the very
same timestamp string is already present, the save appends no row at all —
the timestamp sheet comes back equal to the existing one-row sheet. -/
theorem play_row_appended_cex :
    shouldRecord (some "Another Song") sampleSong = true ∧
    dupTimestampData.timestamp = some [newRowFor sampleSong .timestamp] ∧
    mergedSheet (save_to_excel_merge dupTimestampData sampleSong).1
        .timestamp =
      some (.regular [newRowFor sampleSong .timestamp]) := by
  refine ⟨by decide, rfl, ?_⟩
  decide

/-- C6: `get_currently_playing` yields `None` whenever the playback fetch
raises (it is a total function of its environment, so it never
propagates); a failure of the secondary artist lookup — keyed on the first
artist — is caught independently: the song record is still returned, with
an empty genre list and a null artist image. -/
theorem get_currently_playing_error_handling (env : SpotifyEnv) :
    (env.current_playback = .error () → get_currently_playing env = none) ∧
    (∀ ct item a rest, env.current_playback = .ok (some ct) →
      ct.item = some item → item.artists = a :: rest →
      env.artist a.id = .error () →
      ∃ sd, get_currently_playing env = some sd ∧
        sd.genres = [] ∧ sd.artistImage = none) := by
  constructor
  · intro h
    simp [get_currently_playing, h]
  · intro ct item a rest hpb hitem hart herr
    have hlook : artistLookupResult env (item.artists.map (·.id)) =
        (none, []) := by
      rw [hart, List.map_cons]
      simp [artistLookupResult, herr]
    refine ⟨builtSong env ct item none [], ?_, rfl, rfl⟩
    simp [get_currently_playing, hpb, hitem, hlook]

/-- Witness for C6: against `sampleEnvArtistFail` the record is returned
with empty genres and null artist image. -/
theorem get_currently_playing_error_handling_witness :
    ∃ sd, get_currently_playing sampleEnvArtistFail = some sd ∧
      sd.genres = [] ∧ sd.artistImage = none :=
  (get_currently_playing_error_handling sampleEnvArtistFail).2 samplePlayback
    sampleItem { name := "Artist X", id := "x1" }
    [{ name := "Artist Y", id := "y1" }] rfl rfl rfl rfl

/-- C10: with several artists, the record joins all artist names and all
artist IDs into single comma-separated strings; the artists sheet is keyed
by that joined ID string (`primary_keys` maps `artists` to `Artist ID` and
the new row's key cell is the joined string — one row per artist
combination); genres and the artist image come from the lookup of the
first listed artist only. -/
theorem multi_artist_single_row (env : SpotifyEnv) (ct : PlaybackState)
    (item : ItemObj) (hpb : env.current_playback = .ok (some ct))
    (hitem : ct.item = some item) :
    ∃ sd, get_currently_playing env = some sd ∧
      sd.artist = String.intercalate ", " (item.artists.map (·.name)) ∧
      sd.artistId = String.intercalate ", " (item.artists.map (·.id)) ∧
      primary_keys .artists = "Artist ID" ∧
      rowGet (newRowFor sd .artists) "Artist ID" = .str sd.artistId ∧
      (∀ a rest resp, item.artists = a :: rest → env.artist a.id = .ok resp →
        sd.genres = resp.genres ∧
        sd.artistImage = (resp.images.head?).map (·.url)) := by
  refine ⟨builtSong env ct item
      (artistLookupResult env (item.artists.map (·.id))).1
      (artistLookupResult env (item.artists.map (·.id))).2,
    ?_, rfl, rfl, rfl, rfl, ?_⟩
  · simp only [get_currently_playing, hpb, hitem]
  · intro a rest resp hart hresp
    have hlook : artistLookupResult env (item.artists.map (·.id)) =
        ((resp.images.head?).map (·.url), resp.genres) := by
      rw [hart, List.map_cons]
      simp [artistLookupResult, hresp]
    constructor <;> simp [builtSong, hlook]

/-- Witness for C10: against `sampleEnvOk` (two artists), all conjuncts
hold, including the first-artist genre/image conjunct. -/
theorem multi_artist_single_row_witness :
    ∃ sd, get_currently_playing sampleEnvOk = some sd ∧
      sd.artist = String.intercalate ", " (sampleItem.artists.map (·.name)) ∧
      sd.artistId = String.intercalate ", " (sampleItem.artists.map (·.id)) ∧
      primary_keys .artists = "Artist ID" ∧
      rowGet (newRowFor sd .artists) "Artist ID" = .str sd.artistId ∧
      (∀ a rest resp, sampleItem.artists = a :: rest →
        sampleEnvOk.artist a.id = .ok resp →
        sd.genres = resp.genres ∧
        sd.artistImage = (resp.images.head?).map (·.url)) :=
  multi_artist_single_row sampleEnvOk samplePlayback sampleItem rfl rfl

end TrackerSptfy
